import Mathlib

/-!
Verification of the RobotSimulation parameter-sweep harness.

Shallow embedding of the Python sources `run_robot_optimization.py`,
`analyze_results.py` and `run_robot_experiments.py`.  Pure computations
(string scanning, list selection, record bookkeeping) are translated to
executable Lean functions; the supervision loop of `run_simulation` is
modelled as a fuel-indexed interpreter over an explicit trace of
per-iteration events (process liveness, elapsed wall-clock time, result of
the blocking `readline` call).
-/

namespace RobotSim

/-! ## Completion-message detection (`run_robot_optimization.py`, lines 155-171)

`run_simulation` gates each output line on three Python substring tests
(`"All" in line and "packages delivered in" in line and "steps" in line`)
and then tries three regular expressions in order, taking the step count
from the first that matches.  The concrete regexes are embedded as
character-list parsers; `re.search` semantics (leftmost match) is the
scan over suffixes. -/

/-- Substring containment, Python's `needle in hay`. -/
def strContains (hay needle : List Char) : Bool :=
  match hay with
  | [] => needle.isEmpty
  | _ :: t => needle.isPrefixOf hay || strContains t needle

/-- Match a literal at the head of the input, returning the rest. -/
def litP (lit s : List Char) : Option (List Char) :=
  if lit.isPrefixOf s then some (s.drop lit.length) else none

/-- Value of a digit string, Python's `int(...)` on the `\d+` capture. -/
def digitsToNat (l : List Char) : Nat :=
  l.foldl (fun a c => a * 10 + (c.toNat - 48)) 0

/-- Match `\d+` (one or more digits, maximal run) at the head of the input.
For the embedded patterns a maximal run is equivalent to greedy regex
matching because every capture is followed by a non-digit literal. -/
def digitsP (s : List Char) : Option (Nat × List Char) :=
  let p := s.span Char.isDigit
  if p.1.isEmpty then none else some (digitsToNat p.1, p.2)

/-- `re` pattern `All (\d+) packages delivered in (\d+) steps`, anchored at
the start of the input; the step count is the second capture group. -/
def pat1At (s : List Char) : Option Nat := do
  let s ← litP "All ".data s
  let d1 ← digitsP s
  let s ← litP " packages delivered in ".data d1.2
  let d2 ← digitsP s
  let _ ← litP " steps".data d2.2
  pure d2.1

/-- `re` pattern `All packages delivered in (\d+) steps`, anchored. -/
def pat2At (s : List Char) : Option Nat := do
  let s ← litP "All packages delivered in ".data s
  let d ← digitsP s
  let _ ← litP " steps".data d.2
  pure d.1

/-- `re` pattern `delivered in (\d+) steps`, anchored. -/
def pat3At (s : List Char) : Option Nat := do
  let s ← litP "delivered in ".data s
  let d ← digitsP s
  let _ ← litP " steps".data d.2
  pure d.1

/-- `re.search`: try the anchored pattern at every suffix, leftmost first. -/
def searchPat (p : List Char → Option Nat) : List Char → Option Nat
  | [] => p []
  | c :: t =>
    match p (c :: t) with
    | some n => some n
    | none => searchPat p t

/-- Completion detection applied to one output line: the substring gate of
line 157 followed by the ordered pattern list of lines 159-171; the first
matching pattern supplies the extracted step count. -/
def detectCompletion (line : String) : Option Nat :=
  let cs := line.data
  if strContains cs "All".data && strContains cs "packages delivered in".data
      && strContains cs "steps".data then
    match searchPat pat1At cs with
    | some n => some n
    | none =>
      match searchPat pat2At cs with
      | some n => some n
      | none => searchPat pat3At cs
  else
    none

/-! ## Known-fault detection and post-exit classification
(`run_robot_optimization.py`, lines 206-264) -/

/-- Scan of the captured output for the external configuration-corruption
signature (lines 207-208): a line containing both
`ArrayIndexOutOfBoundsException` and `IniFile.getColorValue`. -/
def hasCorruption (lines : List String) : Bool :=
  lines.any fun l =>
    strContains l.data "ArrayIndexOutOfBoundsException".data &&
      strContains l.data "IniFile.getColorValue".data

/-- Full-output rescan of lines 243-259: first line whose completion
detection succeeds supplies the step count. -/
def scanLines : List String → Option Nat
  | [] => none
  | l :: ls =>
    match detectCompletion l with
    | some n => some n
    | none => scanLines ls

/-- Classification after the supervision loop exits with the process ended,
no timeout and no step count found in real time (lines 206-264): the
corruption signature yields the error result `none` (after the supervisor
itself resets the configuration), a non-zero return code yields `none`, and
a clean exit falls back to the full-output rescan and finally to the
configured maximum step budget 1200. -/
def postClassify (lines : List String) (rc : Int) : Option Int :=
  if hasCorruption lines then none
  else if rc ≠ 0 then none
  else
    match scanLines lines with
    | some n => some (n : Int)
    | none => some 1200

/-! ## The supervision loop (`run_robot_optimization.py`, lines 129-198)

One loop iteration: `process.poll()` (liveness), the wall-clock check
`time.time() - start_time > timeout` with `timeout = 60`, then the blocking
`process.stdout.readline()`.  The environment assigns to each iteration the
observed liveness, the elapsed time at the check, and the outcome of the
read.  `readline` on a pipe whose writer is alive but silent does not
return (CPython blocking-I/O semantics); that outcome is the event
`ReadEv.stuck`, which ends the interpretation with `LoopOut.stuck`: the
Python call never returns and no further iteration happens. -/

/-- Result of one `process.stdout.readline()` call. -/
inductive ReadEv where
  /-- the pipe is at end of file: `readline` promptly returns `""`. -/
  | eof : ReadEv
  /-- a full line is available and returned. -/
  | line : String → ReadEv
  /-- no data and a live writer: the call blocks and never returns. -/
  | stuck : ReadEv
deriving DecidableEq

/-- Observations made by one iteration of the supervision loop. -/
structure LoopEv where
  /-- `process.poll() is None` at the top of the loop. -/
  alive : Bool
  /-- `time.time() - start_time`, in seconds, at the timeout check. -/
  elapsed : ℚ
  /-- outcome of the `readline` call of this iteration. -/
  read : ReadEv
deriving DecidableEq

/-- Result of the supervision loop. -/
inductive LoopOut where
  /-- elapsed time exceeded 60 s before a completion line: the process is
  killed and `timed_out` is set. -/
  | timedOut : LoopOut
  /-- a completion line was detected; its step count was extracted and the
  process was terminated (gracefully, then forcibly). -/
  | completed : Nat → LoopOut
  /-- `poll()` reported the process gone; the captured output lines are
  kept for the post-exit classification. -/
  | exited : List String → LoopOut
  /-- the loop is stuck inside a blocking `readline` forever. -/
  | stuck : LoopOut
  /-- fuel ran out (the interpreter under-approximated the iteration
  count); no claim is made about such a run. -/
  | fuelOut : LoopOut
deriving DecidableEq

/-- Fuel-indexed interpreter of the `while process.poll() is None` loop of
lines 129-193.  `k` is the iteration index, `acc` the reversed list of
captured output lines. -/
def supLoop (env : Nat → LoopEv) : Nat → Nat → List String → LoopOut
  | 0, _, _ => .fuelOut
  | fuel + 1, k, acc =>
    let ev := env k
    if !ev.alive then .exited acc.reverse
    else if ev.elapsed > 60 then .timedOut
    else
      match ev.read with
      | .stuck => .stuck
      | .eof => supLoop env fuel (k + 1) acc
      | .line s =>
        match detectCompletion s with
        | some n => .completed n
        | none => supLoop env fuel (k + 1) (s :: acc)

/-- The whole of `run_simulation` (lines 107-270): the supervision loop
followed by the early returns of lines 196-204 and the post-exit
classification.  The result is `some r` when the Python call returns `r`
(`r = none` is Python's `None`, `r = some (-1)` the timeout sentinel) and
`none` when the call never returns (stuck read) or fuel ran out. -/
def run_simulation (env : Nat → LoopEv) (fuel : Nat) (rc : Int) :
    Option (Option Int) :=
  match supLoop env fuel 0 [] with
  | .timedOut => some (some (-1))
  | .completed n => some (some (n : Int))
  | .exited lines => some (postClassify lines rc)
  | .stuck => none
  | .fuelOut => none

/-! ## Result store and sweep controller (`run_robot_optimization.py`,
`main`, lines 389-537) -/

/-- Status field of a persisted record. -/
inductive Status where
  | success : Status
  | failed : Status
deriving DecidableEq

/-- Value of the `total_steps` field: an integer step count, or the literal
string `'TIMEOUT'` written for timed-out runs (line 450). -/
inductive StepVal where
  | num : Int → StepVal
  | timeoutStr : StepVal
deriving DecidableEq

/-- One persisted result record (timestamps are not modelled: no claim
mentions their value). -/
structure RunRecord where
  num_robots : Nat
  total_steps : StepVal
  status : Status
deriving DecidableEq

/-- State threaded through the sweep loop of lines 432-488: the in-memory
results list (persisted to disk after every append), the
`consecutive_failures` counter, and the number of `fix_config_file` calls
made by the controller (line 481). -/
structure CtrlState where
  results : List RunRecord
  consecutive_failures : Nat
  fixCalls : Nat
deriving DecidableEq

/-- Record appended for a returned outcome `v` (lines 445-461): the `-1`
sentinel becomes a `'TIMEOUT'`/`failed` record, anything else a
`success` record. -/
def record_for (p : Nat) (v : Int) : RunRecord :=
  if v = -1 then ⟨p, .timeoutStr, .failed⟩ else ⟨p, .num v, .success⟩

/-- One iteration of the sweep loop body for parameter `p` whose
`run_simulation` call returned `o` (lines 445-488).  A returned outcome
(`some v`, both success and timeout) is recorded and resets the
consecutive-failure counter (line 472); the error result `none` is not
recorded, increments the counter, and on reaching the threshold 2 triggers
one `fix_config_file` call and resets the counter (lines 477-483;
`fix_config_file` is modelled as always succeeding, so the fatal
`break` of line 487 is never taken). -/
def ctrl_step (s : CtrlState) (p : Nat) (o : Option Int) : CtrlState :=
  match o with
  | some v =>
    { results := s.results ++ [record_for p v]
      consecutive_failures := 0
      fixCalls := s.fixCalls }
  | none =>
    let c := s.consecutive_failures + 1
    if 2 ≤ c then
      { results := s.results, consecutive_failures := 0
        fixCalls := s.fixCalls + 1 }
    else
      { results := s.results, consecutive_failures := c
        fixCalls := s.fixCalls }

/-- The sweep loop over the pending parameter list: each iteration edits
the configuration, launches `run_simulation` once (outcome supplied by the
environment `env`), and updates the controller state. -/
def run_sweep (env : Nat → Option Int) : List Nat → CtrlState → CtrlState
  | [], s => s
  | p :: ps, s => run_sweep env ps (ctrl_step s p (env p))

/-- Membership of a parameter in the tested set
(`tested_robots = set(r['num_robots'] for r in results)`, line 424):
records of any status count. -/
def tested_robots (results : List RunRecord) (n : Nat) : Bool :=
  results.any fun r => r.num_robots == n

/-- Pending-parameter selection of line 425:
`[n for n in range(min_robots, max_robots + 1) if n not in tested_robots]`. -/
def robots_to_test (minR maxR : Nat) (results : List RunRecord) : List Nat :=
  (List.range' minR (maxR + 1 - minR)).filter fun n => !tested_robots results n

/-! ## ConfigEditor (`run_robot_optimization.py`, `modify_config`,
lines 77-105)

The artifact is the list of lines returned by `readlines()` (each keeping
its trailing newline).  The section flag is updated first on every line
(`if line.strip() == "[configuration]" ... elif line.strip().startswith("[")`)
and the robot test then uses the updated flag, exactly as in the Python
loop where both run in the same iteration. -/

/-- The replacement line written at line 95. -/
def robotLine (n : Nat) : String := "  robot = " ++ toString n ++ "\n"

/-- Python's `str.strip()`: drop leading and trailing whitespace. -/
def pyStrip (l : List Char) : List Char :=
  ((l.dropWhile Char.isWhitespace).reverse.dropWhile Char.isWhitespace).reverse

/-- Section-flag update of lines 88-91: `line.strip() == "[configuration]"`
sets the flag, any other `line.strip().startswith("[")` clears it. -/
def updFlag (inCfg : Bool) (l : String) : Bool :=
  if pyStrip l.data == "[configuration]".data then true
  else if "[".data.isPrefixOf (pyStrip l.data) then false
  else inCfg

/-- The robot-field test of line 94: `line.strip().startswith("robot =")`. -/
def isRobotField (l : String) : Bool :=
  "robot =".data.isPrefixOf (pyStrip l.data)

/-- Recursive core of `modify_config`, threading the section flag. -/
def modifyGo (n : Nat) : Bool → List String → List String
  | _, [] => []
  | inCfg, l :: ls =>
    let f := updFlag inCfg l
    (if f && isRobotField l then robotLine n else l) :: modifyGo n f ls

/-- `modify_config(num_robots)` on the artifact's lines: rewrites the
robot field of the `[configuration]` section, leaves every other line
untouched, and writes the (possibly unchanged) lines back. -/
def modify_config (n : Nat) (lines : List String) : List String :=
  modifyGo n false lines

/-- Recursive core of the per-line section flags. -/
def cfgFlagsGo : Bool → List String → List Bool
  | _, [] => []
  | inCfg, l :: ls =>
    let f := updFlag inCfg l
    f :: cfgFlagsGo f ls

/-- Value of the section flag at each line, as seen by the robot test. -/
def cfgFlags (lines : List String) : List Bool := cfgFlagsGo false lines

/-- The `modified` flag of lines 85-100: whether any line is a robot field
inside the `[configuration]` section.  When false the code only prints a
warning and still rewrites the identical lines (lines 99-103). -/
def anyTarget : Bool → List String → Bool
  | _, [] => false
  | inCfg, l :: ls =>
    let f := updFlag inCfg l
    (f && isRobotField l) || anyTarget f ls

/-- `modify_config(num_robots)` of `run_robot_experiments.py`
(lines 28-40): this variant performs no section tracking — it rewrites
every line whose stripped form starts with `robot =`, in whatever section
the line occurs (`for i, line in enumerate(lines): if
line.strip().startswith("robot ="): lines[i] = ...`), and writes the
lines back. -/
def modify_config_exp (n : Nat) (lines : List String) : List String :=
  lines.map fun l => if isRobotField l then robotLine n else l

/-- A small concrete artifact with a same-named `robot` field in the
`[color]` section, as in the repository's default configuration. -/
def sampleConfig : List String :=
  ["[configuration]\n", "  robot = 5\n", "  step=1200\n", "\n",
   "[color]\n", "  robot = 0,255,0\n", "  goal = 50,50,50\n"]

/-! ## Analyzer (`analyze_results.py`)

`analyze_results` (lines 106-169) turns the loaded records into parallel
arrays and selects by `np.argmin`; `np.argmin` returns the first index of
the minimum.  Ratios are modelled in `ℚ` (the float divisions involved are
exact comparisons on these magnitudes); the balanced metric
`steps * np.sqrt(robots)` is selected through the squared key
`steps² * robots`, whose ordering on non-negative data agrees with the
metric's because squaring is strictly monotone there (the agreement with
the real-valued formula is proved where used). -/

/-- First index of the minimum of a non-empty tail, `np.argmin` style. -/
def argminGo : List ℚ → ℚ → Nat → Nat → Nat
  | [], _, best, _ => best
  | y :: ys, cur, best, i =>
    if y < cur then argminGo ys y i (i + 1) else argminGo ys cur best (i + 1)

/-- `np.argmin`: first index attaining the minimum (0 on the empty list). -/
def argminIdx : List ℚ → Nat
  | [] => 0
  | x :: xs => argminGo xs x 0 1

/-- The `robots` array (line 109). -/
def robotsList (rs : List (Nat × Nat)) : List Nat := rs.map Prod.fst

/-- The `steps` array (line 110), as exact rationals. -/
def stepsList (rs : List (Nat × Nat)) : List ℚ :=
  rs.map fun r => (r.2 : ℚ)

/-- `efficiency = steps / robots` (line 118). -/
def efficiencyList (rs : List (Nat × Nat)) : List ℚ :=
  rs.map fun r => (r.2 : ℚ) / (r.1 : ℚ)

/-- Squared keys for `balanced_metric = steps * np.sqrt(robots)`
(line 125): `(steps * sqrt robots)² = steps² * robots`. -/
def balancedKeys (rs : List (Nat × Nat)) : List ℚ :=
  rs.map fun r => ((r.2 : ℚ)) ^ 2 * (r.1 : ℚ)

/-- `fastest_robots = robots[np.argmin(steps)]` (lines 113-114). -/
def fastest_robots (rs : List (Nat × Nat)) : Nat :=
  (robotsList rs).getD (argminIdx (stepsList rs)) 0

/-- `most_efficient_robots = robots[np.argmin(efficiency)]`
(lines 119-120). -/
def most_efficient_robots (rs : List (Nat × Nat)) : Nat :=
  (robotsList rs).getD (argminIdx (efficiencyList rs)) 0

/-- `best_balanced_robots = robots[np.argmin(balanced_metric)]`
(lines 126-127). -/
def best_balanced_robots (rs : List (Nat × Nat)) : Nat :=
  (robotsList rs).getD (argminIdx (balancedKeys rs)) 0

/-- The record set of the spec's concrete Analyzer example. -/
def exampleRecords : List (Nat × Nat) := [(1, 100), (2, 60), (3, 50), (4, 55), (5, 70)]

/-! ### Curve-fit input selection and thresholds -/

/-- Data fed to the curve fit: `analyze_results.py` builds its arrays from
every loaded record (lines 109-110 and 19-20) with no status filter. -/
def fit_input (results : List RunRecord) : List (Nat × StepVal) :=
  results.map fun r => (r.num_robots, r.total_steps)

/-- Guard of the predictive fit in `analyze_results` (line 147):
`if len(robots) >= 5`. -/
def fit_attempted (results : List RunRecord) : Bool :=
  5 ≤ results.length

/-- `valid_results` of `run_robot_optimization.plot_results` (line 275):
only `success` records are plotted on the curve. -/
def valid_results (rs : List RunRecord) : List RunRecord :=
  rs.filter fun r => r.status == .success

/-- `timeout_results` of `run_robot_optimization.plot_results` (line 285):
`failed` records are kept and marked separately on the plot. -/
def timeout_results (rs : List RunRecord) : List RunRecord :=
  rs.filter fun r => r.status == .failed

/-! ### Theoretical-optimum reporting (`analyze_results.py`)

Fitted coefficients `a, c` are modelled as exact rationals.  The range
test of `plot_results` (line 47), `min(robots) <= sqrt(a/c) <= max(robots)`,
is embedded through the equivalent squared comparisons (for `c > 0` and a
positive lower bound); the equivalence with the real-valued formula is the
content of the theorem about it. -/

/-- Guard under which `plot_results` draws the theoretical optimum
(lines 45-49): `c > 0` and `min(robots) <= sqrt(a/c) <= max(robots)`. -/
def plotReportsOptimum (a c : ℚ) (minR maxR : Nat) : Bool :=
  0 < c && (minR : ℚ) ^ 2 * c ≤ a && a ≤ (maxR : ℚ) ^ 2 * c

/-- Guard under which `analyze_results` prints the theoretical optimum
(lines 159-161): only `c > 0`, with no range test. -/
def analysisReportsOptimum (a c : ℚ) : Bool :=
  0 < c

/-! ## Helper lemmas -/

/-- `modify_config` keeps the number of lines. -/
theorem modifyGo_length (n : Nat) (b : Bool) (lines : List String) :
    (modifyGo n b lines).length = lines.length := by
  induction lines generalizing b with
  | nil => rfl
  | cons l ls ih => simp [modifyGo, ih]

/-- Pointwise characterisation of `modifyGo`: line `i` of the output is the
replacement exactly when the section flag holds there and the line is a
robot field; otherwise it is line `i` of the input. -/
theorem modifyGo_getD (n : Nat) (b : Bool) (lines : List String) (i : Nat) :
    (modifyGo n b lines).getD i "" =
      if (cfgFlagsGo b lines).getD i false && isRobotField (lines.getD i "")
      then robotLine n else lines.getD i "" := by
  induction lines generalizing b i with
  | nil => simp [modifyGo, cfgFlagsGo, isRobotField, pyStrip]
  | cons l ls ih =>
    cases i with
    | zero => simp [modifyGo, cfgFlagsGo]
    | succ j => simpa [modifyGo, cfgFlagsGo] using ih (updFlag b l) j

/-- When no line is a robot field of the `[configuration]` section the
rewrite is the identity. -/
theorem modifyGo_id_of_no_target (n : Nat) (b : Bool) (lines : List String)
    (h : anyTarget b lines = false) : modifyGo n b lines = lines := by
  induction lines generalizing b with
  | nil => rfl
  | cons l ls ih =>
    simp only [anyTarget, Bool.or_eq_false_iff] at h
    simp [modifyGo, h.1, ih _ h.2]

/-- Pointwise characterisation of the experiments-script variant: line `i`
of the output is the replacement exactly when the line is a robot field,
regardless of the section it lies in. -/
theorem modify_config_exp_getD (n : Nat) (lines : List String) (i : Nat) :
    (modify_config_exp n lines).getD i "" =
      if isRobotField (lines.getD i "") then robotLine n
      else lines.getD i "" := by
  induction lines generalizing i with
  | nil => simp [modify_config_exp, isRobotField, pyStrip]
  | cons l ls ih =>
    cases i with
    | zero => simp [modify_config_exp]
    | succ j => simpa [modify_config_exp] using ih j

/-- If no captured line passes completion detection, the full-output rescan
finds nothing. -/
theorem scanLines_eq_none (lines : List String)
    (h : ∀ l ∈ lines, detectCompletion l = none) : scanLines lines = none := by
  induction lines with
  | nil => rfl
  | cons l ls ih =>
    have h0 := h l (List.mem_cons_self l ls)
    simp [scanLines, h0, ih fun x hx => h x (List.mem_cons_of_mem l hx)]

/-- Both branches of `record_for` store the tested parameter. -/
theorem record_for_num_robots (p : Nat) (v : Int) :
    (record_for p v).num_robots = p := by
  unfold record_for; split <;> rfl

/-- The tested set after appending one record. -/
theorem tested_robots_append (rs : List RunRecord) (r : RunRecord) (n : Nat) :
    tested_robots (rs ++ [r]) n = (tested_robots rs n || (r.num_robots == n)) := by
  simp [tested_robots]

/-- After a sweep in which every run returns an outcome, a parameter is
tested if it was tested before or was part of the sweep list. -/
theorem run_sweep_tested (env : Nat → Option Int) (ps : List Nat)
    (s : CtrlState) (n : Nat) (henv : ∀ p, env p ≠ none)
    (h : tested_robots s.results n = true ∨ n ∈ ps) :
    tested_robots (run_sweep env ps s).results n = true := by
  induction ps generalizing s with
  | nil =>
    rcases h with h | h
    · exact h
    · cases h
  | cons p ps ih =>
    rcases h with h | h
    · refine ih (ctrl_step s p (env p)) (Or.inl ?_)
      cases henv2 : env p with
      | none => exact absurd henv2 (henv p)
      | some w =>
        simp [ctrl_step, tested_robots_append, h]
    · rcases List.mem_cons.mp h with rfl | hmem
      · refine ih (ctrl_step s n (env n)) (Or.inl ?_)
        cases henv2 : env n with
        | none => exact absurd henv2 (henv n)
        | some w =>
          simp [ctrl_step, tested_robots_append, record_for_num_robots]
      · exact ih (ctrl_step s p (env p)) (Or.inr hmem)

/-- Helper for comparing the balanced metric `steps * sqrt robots`: on
non-negative data it suffices to compare the squared keys. -/
theorem mulSqrt_le_mulSqrt {a b x y : ℝ} (ha : 0 ≤ a) (hb : 0 ≤ b)
    (h : a ^ 2 * x ≤ b ^ 2 * y) : a * Real.sqrt x ≤ b * Real.sqrt y := by
  have h1 : a * Real.sqrt x = Real.sqrt (a ^ 2 * x) := by
    rw [Real.sqrt_mul (sq_nonneg a), Real.sqrt_sq ha]
  have h2 : b * Real.sqrt y = Real.sqrt (b ^ 2 * y) := by
    rw [Real.sqrt_mul (sq_nonneg b), Real.sqrt_sq hb]
  rw [h1, h2]
  exact Real.sqrt_le_sqrt h

/-! ## Claim theorems -/

/-- **C4, counterexample.** The claim also names `modify_config` of
`run_robot_experiments.py` (lines 28-40), which has no section tracking:
on the sample artifact it rewrites the `[color]` section's
`robot = 0,255,0` line (at index 5) to the sweep value — the very
same-named foreign-section field the claim says is never touched — so
the claimed isolation is false for that cited implementation. -/
theorem claim_C4_counterexample :
    modify_config_exp 7 sampleConfig =
      ["[configuration]\n", "  robot = 7\n", "  step=1200\n", "\n",
       "[color]\n", "  robot = 7\n", "  goal = 50,50,50\n"] ∧
    sampleConfig.getD 5 "" = "  robot = 0,255,0\n" ∧
    (modify_config_exp 7 sampleConfig).getD 5 "" ≠
      sampleConfig.getD 5 "" := by
  exact ⟨by decide, by decide, by decide⟩

/-- **C4, amended.** `run_robot_optimization.py`'s `modify_config`
rewrites exactly the robot-field lines that lie inside the
`[configuration]` section (never a same-named `robot` field of another
section such as `[color]`), leaves every other line byte-identical, and
when the field cannot be located it rewrites the artifact unchanged (the
failure is only logged, non-fatal).  `run_robot_experiments.py`'s
`modify_config`, by contrast, performs no section tracking: it rewrites
every robot-field line in any section — on the sample artifact also the
`[color]` one — while leaving all non-robot-field lines byte-identical
(and silently rewrites the artifact unchanged when no such line
exists). -/
theorem claim_C4_amended :
    (∀ (n : Nat) (lines : List String),
      (modify_config n lines).length = lines.length) ∧
    (∀ (n : Nat) (lines : List String) (i : Nat),
      ¬((cfgFlags lines).getD i false = true ∧
          isRobotField (lines.getD i "") = true) →
      (modify_config n lines).getD i "" = lines.getD i "") ∧
    (∀ (n : Nat) (lines : List String) (i : Nat),
      (cfgFlags lines).getD i false = true →
      isRobotField (lines.getD i "") = true →
      (modify_config n lines).getD i "" = robotLine n) ∧
    (∀ (n : Nat) (lines : List String), anyTarget false lines = false →
      modify_config n lines = lines) ∧
    modify_config 7 sampleConfig =
      ["[configuration]\n", "  robot = 7\n", "  step=1200\n", "\n",
       "[color]\n", "  robot = 0,255,0\n", "  goal = 50,50,50\n"] ∧
    (∀ (n : Nat) (lines : List String),
      (modify_config_exp n lines).length = lines.length) ∧
    (∀ (n : Nat) (lines : List String) (i : Nat),
      isRobotField (lines.getD i "") = false →
      (modify_config_exp n lines).getD i "" = lines.getD i "") ∧
    (∀ (n : Nat) (lines : List String) (i : Nat),
      isRobotField (lines.getD i "") = true →
      (modify_config_exp n lines).getD i "" = robotLine n) ∧
    modify_config_exp 7 sampleConfig =
      ["[configuration]\n", "  robot = 7\n", "  step=1200\n", "\n",
       "[color]\n", "  robot = 7\n", "  goal = 50,50,50\n"] := by
  refine ⟨fun n lines => modifyGo_length n false lines, ?_, ?_, ?_,
    by decide, fun n lines => by simp [modify_config_exp], ?_, ?_,
    by decide⟩
  · intro n lines i h
    rw [modify_config, modifyGo_getD]
    rw [cfgFlags] at h
    rcases hf : (cfgFlagsGo false lines).getD i false with _ | _
    · simp
    · rcases hr : isRobotField (lines.getD i "") with _ | _
      · simp
      · exact absurd ⟨hf, hr⟩ h
  · intro n lines i hf hr
    rw [modify_config, modifyGo_getD]
    rw [cfgFlags] at hf
    rw [hf, hr]
    simp
  · intro n lines h
    exact modifyGo_id_of_no_target n false lines h
  · intro n lines i hr
    rw [modify_config_exp_getD, hr]
    simp
  · intro n lines i hr
    rw [modify_config_exp_getD, hr]
    simp

/-- Witness for C4 at concrete inputs: the optimization-script editor
leaves the `[color]` robot line (index 5 of the sample artifact)
untouched and rewrites a field-less artifact identically, while the
experiments-script editor rewrites that same `[color]` line. -/
theorem claim_C4_amended_witness :
    (modify_config 7 sampleConfig).getD 5 "" = sampleConfig.getD 5 "" ∧
    modify_config 3 ["[environment]\n", "  rows = 20\n"] =
      ["[environment]\n", "  rows = 20\n"] ∧
    (modify_config_exp 7 sampleConfig).getD 5 "" = robotLine 7 :=
  ⟨claim_C4_amended.2.1 7 sampleConfig 5 (by decide),
   claim_C4_amended.2.2.2.1 3 ["[environment]\n", "  rows = 20\n"]
     (by decide),
   claim_C4_amended.2.2.2.2.2.2.2.1 7 sampleConfig 5 (by decide)⟩

/-- **C5, counterexample.** A single output line of the third tolerated
variant, `delivered in <n> steps`, is NOT detected: it fails the
substring gate `"All" in line and "packages delivered in" in line` of
line 157, so no step count is extracted from it. -/
theorem claim_C5_counterexample :
    detectCompletion "delivered in 487 steps" = none ∧
    detectCompletion "delivered in 487 steps" ≠ some 487 := by
  exact ⟨by decide, by decide⟩

/-- **C5, amended.** Completion parsing: single lines of the first two
variants yield the correct step count; the third pattern
`delivered in (\d+) steps` extracts the count only from lines that also
pass the substring gate (contain `All`, `packages delivered in` and
`steps`) yet match neither more specific pattern, such as
`All the packages delivered in 42 steps`; the bare third variant as a
whole line is not detected.  The patterns are tried most specific first
and the first match supplies the count. -/
theorem claim_C5_amended :
    detectCompletion "All 5 packages delivered in 487 steps" = some 487 ∧
    detectCompletion "All packages delivered in 487 steps" = some 487 ∧
    detectCompletion "All the packages delivered in 42 steps" = some 42 ∧
    detectCompletion "delivered in 487 steps" = none := by
  refine ⟨by decide, by decide, by decide, by decide⟩

/-- **C1, counterexample.** On the records
(1,100),(2,60),(3,50),(4,55),(5,70) the most-efficient metric
`argmin(steps / robots)` selects 4 robots (ratio 55/4 = 13.75), not the
3 robots (ratio 50/3 ≈ 16.7) asserted by the claim. -/
theorem claim_C1_counterexample :
    most_efficient_robots exampleRecords = 4 ∧
    most_efficient_robots exampleRecords ≠ 3 := by
  constructor <;>
    norm_num [most_efficient_robots, efficiencyList, robotsList,
      exampleRecords, argminIdx, argminGo, List.getD]

/-- **C1, amended.** On the records (1,100),(2,60),(3,50),(4,55),(5,70):
the fastest metric selects (3,50); the most-efficient metric selects
(4,55), whose ratio 13.75 is the minimum; the best-balanced metric
selects (2,60), and this agrees with direct recomputation of
`steps * sqrt(robots)` over the same records: `60·√2` is below the value
of the formula at every record. -/
theorem claim_C1_amended :
    fastest_robots exampleRecords = 3 ∧
    most_efficient_robots exampleRecords = 4 ∧
    best_balanced_robots exampleRecords = 2 ∧
    (60 : ℝ) * Real.sqrt 2 ≤ 100 * Real.sqrt 1 ∧
    (60 : ℝ) * Real.sqrt 2 ≤ 50 * Real.sqrt 3 ∧
    (60 : ℝ) * Real.sqrt 2 ≤ 55 * Real.sqrt 4 ∧
    (60 : ℝ) * Real.sqrt 2 ≤ 70 * Real.sqrt 5 := by
  refine ⟨?_, ?_, ?_, ?_, ?_, ?_, ?_⟩
  · norm_num [fastest_robots, stepsList, robotsList, exampleRecords,
      argminIdx, argminGo, List.getD]
  · norm_num [most_efficient_robots, efficiencyList, robotsList,
      exampleRecords, argminIdx, argminGo, List.getD]
  · norm_num [best_balanced_robots, balancedKeys, robotsList,
      exampleRecords, argminIdx, argminGo, List.getD]
  · exact mulSqrt_le_mulSqrt (by norm_num) (by norm_num) (by norm_num)
  · exact mulSqrt_le_mulSqrt (by norm_num) (by norm_num) (by norm_num)
  · exact mulSqrt_le_mulSqrt (by norm_num) (by norm_num) (by norm_num)
  · exact mulSqrt_le_mulSqrt (by norm_num) (by norm_num) (by norm_num)

/-- **C2.** Counter-evidence for the timeout bound: against a child
process that stays alive and writes nothing to its standard output, the
supervision loop blocks forever inside `process.stdout.readline()`
(line 144; a read from a pipe with no pending data and a live writer does
not return) before any iteration can reach the timeout check again, for
any number of loop iterations the interpreter is given.  `run_simulation`
therefore never returns the TIMEOUT sentinel, never force-kills the
process, and is not bounded by `timeout + grace_period`. -/
theorem claim_C2_stuck_readline :
    ∀ (fuel : Nat) (rc : Int),
      supLoop (fun _ => ⟨true, 1, ReadEv.stuck⟩) (fuel + 1) 0 [] =
        LoopOut.stuck ∧
      run_simulation (fun _ => ⟨true, 1, ReadEv.stuck⟩) (fuel + 1) rc =
        none := by
  intro fuel rc
  constructor
  · simp [supLoop]
  · simp [run_simulation, supLoop]

/-- **C3, counterexample.** Two consecutive TIMEOUT outcomes — both
recorded with status `failed`, hence two consecutive non-success
outcomes — trigger zero `fix_config_file` calls, not exactly one: the
timeout sentinel `-1` is handled in the `total_steps is not None` branch,
which resets the consecutive-failure counter (line 472). -/
theorem claim_C3_counterexample :
    (run_sweep (fun _ => some (-1)) [1, 2] ⟨[], 0, 0⟩).results =
      [⟨1, .timeoutStr, .failed⟩, ⟨2, .timeoutStr, .failed⟩] ∧
    (run_sweep (fun _ => some (-1)) [1, 2] ⟨[], 0, 0⟩).fixCalls = 0 ∧
    (run_sweep (fun _ => some (-1)) [1, 2] ⟨[], 0, 0⟩).consecutive_failures
      = 0 := by
  exact ⟨by decide, by decide, by decide⟩

/-- **C3, amended.** The consecutive-failure counter counts only runs
returning the error result `None` (generic failures and ConfigCorrupted),
not recorded outcomes: every recorded outcome — Success and
TIMEOUT/`failed` alike — resets the counter to zero without a recovery
call; the second consecutive error run triggers exactly one
`fix_config_file` call by the controller and resets the counter; one
isolated error run only increments the counter; and along any sweep the
counter never exceeds 1 (recovery always intervenes at the threshold 2). -/
theorem claim_C3_amended :
    (∀ (s : CtrlState) (p : Nat) (v : Int),
      (ctrl_step s p (some v)).consecutive_failures = 0 ∧
      (ctrl_step s p (some v)).fixCalls = s.fixCalls) ∧
    (∀ (s : CtrlState) (p : Nat), s.consecutive_failures = 1 →
      ctrl_step s p none = ⟨s.results, 0, s.fixCalls + 1⟩) ∧
    (∀ (s : CtrlState) (p : Nat), s.consecutive_failures = 0 →
      ctrl_step s p none = ⟨s.results, 1, s.fixCalls⟩) ∧
    (∀ (env : Nat → Option Int) (ps : List Nat) (s : CtrlState),
      s.consecutive_failures ≤ 1 →
      (run_sweep env ps s).consecutive_failures ≤ 1) := by
  refine ⟨fun s p v => ⟨rfl, rfl⟩, ?_, ?_, ?_⟩
  · intro s p h
    simp [ctrl_step, h]
  · intro s p h
    simp [ctrl_step, h]
  · intro env ps
    induction ps with
    | nil => intro s h; exact h
    | cons p ps ih =>
      intro s h
      refine ih (ctrl_step s p (env p)) ?_
      cases henv : env p with
      | none =>
        simp only [ctrl_step]
        split
        · simp
        · simp
          omega
      | some v => simp [ctrl_step]

/-- Witness for C3 at concrete inputs: with the counter at 1, one more
error run performs exactly one recovery call and resets the counter; and
a sweep of three straight error runs keeps the counter at most 1. -/
theorem claim_C3_amended_witness :
    ctrl_step ⟨[], 1, 0⟩ 3 none = ⟨[], 0, 1⟩ ∧
    (run_sweep (fun _ => none) [1, 2, 3] ⟨[], 0, 0⟩).consecutive_failures
      ≤ 1 :=
  ⟨claim_C3_amended.2.1 ⟨[], 1, 0⟩ 3 rfl,
   claim_C3_amended.2.2.2 (fun _ => none) [1, 2, 3] ⟨[], 0, 0⟩
     (by decide)⟩

/-- **C6, counterexample.** The claim fails on both counts: a `failed`
record (here the `'TIMEOUT'` record for 2 robots) is part of the data the
analysis script feeds to the curve fit, because `analyze_results.py`
builds its arrays from every loaded record with no status filter; and
with exactly 2 success records the predictive fit is NOT attempted,
because the guard of `analyze_results` is `len(robots) >= 5`, not 2. -/
theorem claim_C6_counterexample :
    (2, StepVal.timeoutStr) ∈
      fit_input [⟨1, .num 100, .success⟩, ⟨2, .timeoutStr, .failed⟩,
        ⟨3, .num 50, .success⟩] ∧
    fit_attempted [⟨1, .num 100, .success⟩, ⟨2, .num 60, .success⟩]
      = false := by
  exact ⟨by decide, by decide⟩

/-- **C6, amended.** The curve fit of the analysis script consumes every
loaded record regardless of status; the sweep script's plotting is what
excludes `failed` records from the curve while retaining them (marked
separately); and the predictive fit of `analyze_results` is attempted
exactly when at least 5 records exist (fit failure is caught by a bare
`except`, logged and non-fatal). -/
theorem claim_C6_amended :
    (∀ (rs : List RunRecord) (r : RunRecord), r ∈ rs →
      (r.num_robots, r.total_steps) ∈ fit_input rs) ∧
    (∀ rs : List RunRecord, fit_attempted rs = true ↔ 5 ≤ rs.length) ∧
    (∀ (rs : List RunRecord) (r : RunRecord), r.status = .failed →
      r ∉ valid_results rs ∧ (r ∈ rs → r ∈ timeout_results rs)) := by
  refine ⟨?_, ?_, ?_⟩
  · intro rs r hr
    exact List.mem_map_of_mem _ hr
  · intro rs
    simp [fit_attempted]
  · intro rs r hst
    constructor
    · intro hmem
      have := (List.mem_filter.mp hmem).2
      simp [hst] at this
    · intro hmem
      exact List.mem_filter.mpr ⟨hmem, by simp [hst]⟩

/-- Witness for C6 at a concrete store: the failed record feeds the fit
input, is excluded from the plotted curve and retained among the timeout
marks; and a three-record store does not reach the fit threshold. -/
theorem claim_C6_amended_witness :
    ((2 : Nat), StepVal.timeoutStr) ∈
      fit_input [⟨1, .num 100, .success⟩, ⟨2, .timeoutStr, .failed⟩] ∧
    (fit_attempted [⟨1, .num 100, .success⟩, ⟨2, .timeoutStr, .failed⟩]
      = true ↔
      5 ≤ ([⟨1, .num 100, .success⟩, ⟨2, .timeoutStr, .failed⟩] :
        List RunRecord).length) ∧
    (⟨2, .timeoutStr, .failed⟩ : RunRecord) ∉
      valid_results [⟨1, .num 100, .success⟩, ⟨2, .timeoutStr, .failed⟩] :=
  ⟨claim_C6_amended.1 _ ⟨2, .timeoutStr, .failed⟩ (by decide),
   claim_C6_amended.2.1 _,
   (claim_C6_amended.2.2
     [⟨1, .num 100, .success⟩, ⟨2, .timeoutStr, .failed⟩]
     ⟨2, .timeoutStr, .failed⟩ rfl).1⟩

/-- **C7, counterexample.** With fitted coefficients `a = 100`, `c = 1`
and tested range `[1, 5]`, the closed-form optimum is
`sqrt(a/c) = 10`, outside the tested range; `plot_results` correctly
suppresses it, but `analyze_results` (lines 159-161) reports it anyway —
its guard is only `c > 0`, with no range test — refuting "reported only
if it falls within the tested parameter range". -/
theorem claim_C7_counterexample :
    analysisReportsOptimum 100 1 = true ∧
    Real.sqrt ((100 : ℝ) / 1) = 10 ∧
    ¬((10 : ℝ) ≤ 5) ∧
    plotReportsOptimum 100 1 1 5 = false := by
  refine ⟨by decide, ?_, by norm_num, ?_⟩
  · rw [show ((100 : ℝ) / 1) = 10 ^ 2 by norm_num]
    exact Real.sqrt_sq (by norm_num)
  · simp only [plotReportsOptimum]
    norm_num

/-- **C7, amended.** The plot path reports the theoretical optimum only
when `c > 0` and `sqrt(a/c)` lies within the tested range
`[min(robots), max(robots)]` (the embedded squared comparisons are shown
equivalent to the real-valued bounds); the textual analysis path prints
the theoretical optimum whenever `c > 0`, with no range restriction. -/
theorem claim_C7_amended :
    (∀ (a c : ℚ) (minR maxR : Nat), 1 ≤ minR →
      plotReportsOptimum a c minR maxR = true →
      0 < c ∧
      (minR : ℝ) ≤ Real.sqrt ((a : ℝ) / (c : ℝ)) ∧
      Real.sqrt ((a : ℝ) / (c : ℝ)) ≤ (maxR : ℝ)) ∧
    (∀ a c : ℚ, 0 < c → analysisReportsOptimum a c = true) := by
  constructor
  · intro a c minR maxR hmin h
    simp only [plotReportsOptimum, Bool.and_eq_true, decide_eq_true_eq]
    at h
    obtain ⟨⟨hc, hlo⟩, hhi⟩ := h
    have hcR : (0 : ℝ) < (c : ℝ) := by exact_mod_cast hc
    have hloR : ((minR : ℝ)) ^ 2 * (c : ℝ) ≤ (a : ℝ) := by
      have := hlo
      push_cast at this ⊢
      exact_mod_cast hlo
    have hhiR : (a : ℝ) ≤ ((maxR : ℝ)) ^ 2 * (c : ℝ) := by
      exact_mod_cast hhi
    have hminR : (0 : ℝ) < (minR : ℝ) := by
      have : (1 : ℝ) ≤ (minR : ℝ) := by exact_mod_cast hmin
      linarith
    refine ⟨hc, ?_, ?_⟩
    · rw [Real.le_sqrt' hminR]
      rw [le_div_iff₀ hcR]
      exact hloR
    · rw [Real.sqrt_le_left (by positivity)]
      rw [div_le_iff₀ hcR]
      exact hhiR
  · intro a c hc
    simp [analysisReportsOptimum, hc]

/-- Witness for C7 at concrete inputs: with `a = 4`, `c = 1` and range
`[1, 5]` the plot guard holds and the real bounds
`1 ≤ sqrt(4/1) ≤ 5` follow; the analysis guard holds whenever `c > 0`. -/
theorem claim_C7_amended_witness :
    (0 < (1 : ℚ) ∧
      ((1 : Nat) : ℝ) ≤ Real.sqrt (((4 : ℚ) : ℝ) / ((1 : ℚ) : ℝ)) ∧
      Real.sqrt (((4 : ℚ) : ℝ) / ((1 : ℚ) : ℝ)) ≤ ((5 : Nat) : ℝ)) ∧
    analysisReportsOptimum 4 1 = true :=
  ⟨claim_C7_amended.1 4 1 1 5 (by decide)
     (by simp only [plotReportsOptimum]; norm_num),
   claim_C7_amended.2 4 1 (by norm_num)⟩

/-- **C8.** If the supervision loop ends because the process exited, no
captured line carries a completion message, the output has no
configuration-corruption signature, and the return code is 0 (clean
exit), then `run_simulation` returns the configured maximum step budget
1200 instead of failing the run, and the controller records the outcome
with `success` status. -/
theorem claim_C8_fallback :
    ∀ (env : Nat → LoopEv) (fuel : Nat) (lines : List String)
      (p : Nat) (s : CtrlState),
      supLoop env fuel 0 [] = .exited lines →
      (∀ l ∈ lines, detectCompletion l = none) →
      hasCorruption lines = false →
      run_simulation env fuel 0 = some (some 1200) ∧
      ctrl_step s p (some 1200) =
        ⟨s.results ++ [⟨p, .num 1200, .success⟩], 0, s.fixCalls⟩ := by
  intro env fuel lines p s hloop hnone hcorr
  constructor
  · simp [run_simulation, hloop, postClassify, hcorr,
      scanLines_eq_none lines hnone]
  · simp [ctrl_step, record_for]

/-- Witness for C8: a run whose only output line is ordinary logging, with
the process gone at the second poll, yields 1200 and a success record. -/
theorem claim_C8_fallback_witness :
    run_simulation
      (fun k => if k = 0 then ⟨true, 1, .line "Simulation running"⟩
        else ⟨false, 2, .eof⟩) 3 0 = some (some 1200) ∧
    ctrl_step ⟨[], 0, 0⟩ 4 (some 1200) =
      ⟨[⟨4, .num 1200, .success⟩], 0, 0⟩ :=
  claim_C8_fallback
    (fun k => if k = 0 then ⟨true, 1, .line "Simulation running"⟩
      else ⟨false, 2, .eof⟩) 3 ["Simulation running"] 4 ⟨[], 0, 0⟩
    (by decide) (by decide) (by decide)

/-- **C9, counterexample.** A second sweep with identical inputs can
launch additional processes: an error run (`run_simulation` returning
`None`) is skipped without being recorded (line 474), so with a range of
the single parameter 1 and a first sweep whose run errors, the second
sweep's pending list is again `[1]` — one more launch, not zero. -/
theorem claim_C9_counterexample :
    robots_to_test 1 1 [] = [1] ∧
    robots_to_test 1 1
      (run_sweep (fun _ => none) (robots_to_test 1 1 []) ⟨[], 0, 0⟩).results
      = [1] := by
  exact ⟨by decide, by decide⟩

/-- **C9, amended.** The pending-parameter selection is exactly the
ascending sequence of values of the requested range having no existing
record of any status; and a second sweep with identical inputs launches
zero additional processes provided every run of the first sweep returned
an outcome (success or timeout) — runs returning the error result `None`
are skipped without a record and are retried by the second sweep. -/
theorem claim_C9_amended :
    (∀ (minR maxR : Nat) (results : List RunRecord) (n : Nat),
      n ∈ robots_to_test minR maxR results ↔
        minR ≤ n ∧ n ≤ maxR ∧ tested_robots results n = false) ∧
    (∀ (minR maxR : Nat) (results : List RunRecord),
      List.Sorted (· < ·) (robots_to_test minR maxR results)) ∧
    (∀ (env : Nat → Option Int) (minR maxR : Nat)
      (results : List RunRecord) (cf fc : Nat),
      (∀ p, env p ≠ none) →
      robots_to_test minR maxR
        (run_sweep env (robots_to_test minR maxR results)
          ⟨results, cf, fc⟩).results = []) := by
  refine ⟨?_, ?_, ?_⟩
  · intro minR maxR results n
    simp only [robots_to_test, List.mem_filter, List.mem_range'_1,
      Bool.not_eq_true']
    constructor
    · rintro ⟨⟨h1, h2⟩, h3⟩
      exact ⟨h1, by omega, h3⟩
    · rintro ⟨h1, h2, h3⟩
      exact ⟨⟨h1, by omega⟩, h3⟩
  · intro minR maxR results
    exact (List.pairwise_lt_range' minR (maxR + 1 - minR)).filter _
  · intro env minR maxR results cf fc henv
    refine List.filter_eq_nil_iff.mpr ?_
    intro n hn
    have htrue : tested_robots
        (run_sweep env (robots_to_test minR maxR results)
          ⟨results, cf, fc⟩).results n = true := by
      by_cases htested : tested_robots results n = true
      · exact run_sweep_tested env _ ⟨results, cf, fc⟩ n henv
          (Or.inl htested)
      · refine run_sweep_tested env _ ⟨results, cf, fc⟩ n henv (Or.inr ?_)
        refine List.mem_filter.mpr ⟨hn, ?_⟩
        simp only [Bool.not_eq_true] at htested
        simp [robots_to_test, htested]
    simp [htrue]

/-- Witness for C9 at concrete inputs: after a first sweep over range
`[1, 2]` whose runs all return outcomes, nothing is pending. -/
theorem claim_C9_amended_witness :
    robots_to_test 1 2
      (run_sweep (fun _ => some 100) (robots_to_test 1 2 [])
        ⟨[], 0, 0⟩).results = [] :=
  claim_C9_amended.2.2 (fun _ => some 100) 1 2 [] 0 0
    (fun _ h => Option.noConfusion h)

/-- **C10.** If a completion line with a parseable step count is observed
during the supervision loop, `run_simulation` returns that step count
even when the external process is later observed with a non-zero return
code (the early return of line 202 precedes the return-code check of
line 232), and the controller records the run with `success` status. -/
theorem claim_C10_success_overrides_exit :
    ∀ (env : Nat → LoopEv) (fuel : Nat) (rc : Int) (n p : Nat)
      (s : CtrlState),
      rc ≠ 0 →
      supLoop env fuel 0 [] = .completed n →
      run_simulation env fuel rc = some (some (n : Int)) ∧
      ctrl_step s p (some (n : Int)) =
        ⟨s.results ++ [⟨p, .num (n : Int), .success⟩], 0, s.fixCalls⟩ := by
  intro env fuel rc n p s hrc hloop
  constructor
  · simp [run_simulation, hloop]
  · have hne : (n : Int) ≠ -1 := by omega
    simp [ctrl_step, record_for, hne]

/-- Witness for C10: a run that prints a completion line and is then
killed (return code 137) still returns 487 steps and a success record. -/
theorem claim_C10_success_overrides_exit_witness :
    run_simulation
      (fun _ => ⟨true, 1, .line "All 5 packages delivered in 487 steps"⟩)
      3 137 = some (some 487) ∧
    ctrl_step ⟨[], 0, 0⟩ 5 (some 487) =
      ⟨[⟨5, .num 487, .success⟩], 0, 0⟩ :=
  claim_C10_success_overrides_exit
    (fun _ => ⟨true, 1, .line "All 5 packages delivered in 487 steps"⟩)
    3 137 487 5 ⟨[], 0, 0⟩ (by decide) (by decide)

end RobotSim
